import Mathlib

/-!
Shallow embedding of the multi-source result-resolution engine of
src/index.js (an Express service that races a student-record lookup
across several configured Supabase projects, enriches the winner, and
falls back to an external web API).

Modelling conventions:
- JavaScript null/undefined is Option.none; a JS value that can be a
  number, a string or NaN is the inductive GVal (numeric values are
  restricted to integers; no claim depends on fractional parsing).
- JS truthiness of the values we need: "" is falsy, 0 is falsy, NaN is
  falsy, null/undefined are falsy, everything else truthy.
- Promises are modelled by their settlement: Settle.ok v t (fulfilled
  with v at time t) or Settle.rej t (rejected at time t).  Promise.any
  picks the fulfilled settlement with the least time, ties broken by
  list order (timers fire in registration order).  withTimeout ms turns
  a settlement at time t >= ms into a rejection at ms.
- Thrown exceptions are modelled as rejections / Option.none; every
  embedded function is total.
-/

/-- A JavaScript primitive value as it appears in grade fields:
a number (restricted to integers here), a string, or NaN. -/
inductive GVal where
  | num (n : Int)
  | str (s : String)
  | nan
  deriving DecidableEq, Repr

/-- JS String(v) on a GVal. String(NaN) is "NaN". -/
def GVal.toStr : GVal → String
  | .num n => toString n
  | .str s => s
  | .nan => "NaN"

/-- JS truthiness of a GVal: 0, "" and NaN are falsy. -/
def GVal.truthy : GVal → Bool
  | .num n => n != 0
  | .str s => s != ""
  | .nan => false

/-- JS `a || d` where a is a possibly null/undefined string. -/
def jsOrStr (a : Option String) (d : String) : String :=
  match a with
  | none => d
  | some s => if s = "" then d else s

/-- JS `a || d` where a is a plain string. -/
def jsOr (a d : String) : String :=
  if a = "" then d else a

/-- JS `a || d` where a is a possibly null/undefined GVal. -/
def jsOrVal (a : Option GVal) (d : GVal) : GVal :=
  match a with
  | none => d
  | some v => if v.truthy then v else d

/-- JS Number(s) on a string (integer-restricted): non-numeric strings
give NaN. -/
def jsNumberOfStr (s : String) : GVal :=
  match s.toInt? with
  | some n => .num n
  | none => .nan

/-- JS Number(v) on a GVal. -/
def GVal.toNumber : GVal → GVal
  | .num n => .num n
  | .str s => jsNumberOfStr s
  | .nan => .nan

/-- A row of the Supabase gpa_records table as consumed by the mapping
(src/index.js:124-133 selects semester, gpa, is_reference, ref_subjects,
created_at), and also the internal format webApiFallback converts to
(src/index.js:172-178).  ref_subjects = none models a value that is not
an array (Array.isArray fails). -/
structure GpaRecord where
  semester : Option GVal
  gpa : Option GVal
  is_reference : Bool
  ref_subjects : Option (List String)
  created_at : Option String
  deriving DecidableEq, Repr

/-- The nested result object of a canonical grade entry
(src/index.js:271). -/
structure ResultInner where
  gpa : String
  ref_subjects : List String
  deriving DecidableEq, Repr

/-- One canonical resultData entry (src/index.js:268-274 and 297-303). -/
structure ResultEntry where
  publishedAt : String
  semester : String
  result : ResultInner
  passed : Bool
  gpa : String
  deriving DecidableEq, Repr

/-- JS `g.gpa == null ? "ref" : String(g.gpa)` (src/index.js:271,273):
loose == null catches null and undefined only; NaN stringifies to
"NaN". -/
def gpaField (g : Option GVal) : String :=
  match g with
  | none => "ref"
  | some v => v.toStr

/-- The canonical-output grade mapping of the Supabase winner path
(src/index.js:268-274):
publishedAt = g.created_at || sentinel, semester = String(g.semester||1),
result = (gpa, ref_subjects), passed = g.is_reference ? false : true,
gpa = g.gpa == null ? "ref" : String(g.gpa). -/
def mapGpaRecord (g : GpaRecord) : ResultEntry :=
  { publishedAt := jsOrStr g.created_at "2025-01-01T00:00:00Z"
    semester := (jsOrVal g.semester (.num 1)).toStr
    result := { gpa := gpaField g.gpa
                ref_subjects := g.ref_subjects.getD [] }
    passed := !g.is_reference
    gpa := gpaField g.gpa }

/-- The canonical-output grade mapping of the web-fallback path
(src/index.js:297-303): same field computations as the Supabase path,
written at a second code site. -/
def mapGpaRecordWeb (g : GpaRecord) : ResultEntry :=
  { publishedAt := jsOrStr g.created_at "2025-01-01T00:00:00Z"
    semester := (jsOrVal g.semester (.num 1)).toStr
    passed := !g.is_reference
    gpa := gpaField g.gpa
    result := { gpa := gpaField g.gpa
                ref_subjects := g.ref_subjects.getD [] } }

/-- A stored grade row whose gpa value is missing (null) but whose
is_reference flag is not set. -/
def gMissingNoRef : GpaRecord :=
  { semester := some (.num 3)
    gpa := none
    is_reference := false
    ref_subjects := some []
    created_at := some "2024-01-01" }

/-- The settlement of a promise: fulfilled with a value at a time, or
rejected at a time (times in ms from issue). -/
inductive Settle (α : Type) where
  | ok (v : α) (t : Nat)
  | rej (t : Nat)
  deriving DecidableEq, Repr

/-- Promise.any over a list of settlements: the fulfilled value with the
least settlement time, ties broken by list order; none when every
promise rejects (the AggregateError case). -/
def firstFulfilled {α : Type} : List (Settle α) → Option (α × Nat)
  | [] => none
  | .ok v t :: rest =>
      match firstFulfilled rest with
      | none => some (v, t)
      | some (w, s) => if s < t then some (w, s) else some (v, t)
  | .rej _ :: rest => firstFulfilled rest

/-- Tunable timeouts of src/index.js:29-32 at their default values. -/
def PROJECT_TIMEOUT_MS : Nat := 500

/-- Default GPA fetch timeout (src/index.js:30). -/
def GPA_TIMEOUT_MS : Nat := 300

/-- Default CGPA fetch timeout (src/index.js:31). -/
def CGPA_TIMEOUT_MS : Nat := 200

/-- The process configuration as read by the resolution code paths:
the current-project pointer, the optional explicit search order
(JS search_order || Object.keys(projects): null/undefined falls back to
the project keys; an empty array is truthy and stays empty), and the
configured project names (src/index.js:43-53). -/
structure Config where
  current_project : Option String
  search_order : Option (List String)
  projects : List String
  deriving DecidableEq, Repr

/-- config.search_order || Object.keys(config.projects)
(src/index.js:136, 236, 290, 315). -/
def searchOrder (cfg : Config) : List String :=
  cfg.search_order.getD cfg.projects

/-- The switch-project endpoint (src/index.js:224-229): sets the
process-wide current_project when the name is configured, else a 404
with no state change.  Returns the new config and whether it
succeeded. -/
def switchProject (cfg : Config) (name : String) : Config × Bool :=
  if name ∈ cfg.projects then ({ cfg with current_project := some name }, true)
  else (cfg, false)

/-- A students-table row as selected by queryStudentInProject
(src/index.js:100-106). -/
structure Student where
  roll_number : String
  program_name : String
  regulation_year : String
  institute_code : String
  created_at : String
  deriving DecidableEq, Repr

/-- An institutes-table row (src/index.js:111-117). -/
structure Institute where
  institute_code : String
  name : String
  district : String
  deriving DecidableEq, Repr

/-- The observable behavior of queryStudentInProject for one project on
the query key of the request: a matching student (with optional
institute row) delivered at time t, a null student at time t, a thrown
error at time t (this also covers a getClient unknown-project throw),
or a backend that never responds. -/
inductive QueryBehavior where
  | found (s : Student) (inst : Option Institute) (t : Nat)
  | notFound (t : Nat)
  | fails (t : Nat)
  | hangs
  deriving DecidableEq, Repr

/-- The dispatch winner shape: spread of queryStudentInProject result
plus project_name (src/index.js:240). -/
structure Winner where
  student : Student
  institute : Option Institute
  project_name : String
  deriving DecidableEq, Repr

/-- Settlement of one per-project promise of the dispatcher
(src/index.js:238-242): withTimeout(query.then(r : r ? winner :
reject), T).  A null student or a thrown error rejects at its own time
(capped by the timeout); a match later than the timeout is a timeout
rejection; fulfilment requires t < T. -/
def projectSettle (T : Nat) (name : String) (b : QueryBehavior) : Settle Winner :=
  match b with
  | .found s inst t => if t < T then .ok ⟨s, inst, name⟩ t else .rej T
  | .notFound t => .rej (min t T)
  | .fails t => .rej (min t T)
  | .hangs => .rej T

/-- The observable behavior of one backend fetch returning a value of
type α: a value at a time, an error at a time, or no response. -/
inductive Fetch (α : Type) where
  | ok (v : α) (t : Nat)
  | err (t : Nat)
  | hangs
  deriving DecidableEq, Repr

/-- A cgpa_records row as selected with limit(20)
(src/index.js:139-143). -/
structure CgpaRow where
  semester : Option GVal
  cgpa : Option GVal
  created_at : Option String
  deriving DecidableEq, Repr

/-- One canonical cgpaData entry (src/index.js:146-150): semester is
kept as a raw JS value (r.semester || "Final", no String conversion),
cgpa = String(r.cgpa ?? "0.00"), publishedAt = r.created_at ||
sentinel. -/
structure CgpaOut where
  semester : GVal
  cgpa : String
  publishedAt : String
  deriving DecidableEq, Repr

/-- The cgpa row mapping of src/index.js:146-150.  The ?? is nullish
coalescing: only null/undefined fall back to "0.00". -/
def mapCgpaRow (r : CgpaRow) : CgpaOut :=
  { semester := jsOrVal r.semester (.str "Final")
    cgpa := (match r.cgpa with
             | none => "0.00"
             | some v => v.toStr)
    publishedAt := jsOrStr r.created_at "2025-01-01T00:00:00Z" }

/-- The grade-entry shape of the external web API payload
(src/index.js:172-178): result may be a bare number, a string (the
marker "ref" or a numeric string), a nested object carrying a
ref_subjects list (none when that property is not an array), or absent;
passed may be absent; semester may be absent. -/
inductive WebResultVal where
  | num (n : Int)
  | str (s : String)
  | obj (ref_subjects : Option (List String))
  | undef
  deriving DecidableEq, Repr

/-- One entry of data.resultData in the web API payload. -/
structure WebGrade where
  semester : Option GVal
  result : WebResultVal
  passed : Option Bool
  publishedAt : Option String
  deriving DecidableEq, Repr

/-- data.instituteData of the web API payload; every field may be
absent. -/
structure WebInstitute where
  code : Option String
  name : Option String
  district : Option String
  deriving DecidableEq, Repr

/-- The parsed JSON body of the web API response; every field may be
absent. -/
structure WebPayload where
  roll : Option String
  exam : Option String
  regulation : Option String
  time : Option String
  instituteData : Option WebInstitute
  resultData : Option (List WebGrade)
  deriving DecidableEq, Repr

/-- The response body of a 2xx answer from the external service, as
axios delivers it in resp.data: a JSON null body (every property
access on it throws a TypeError), a zero-length body (axios leaves
resp.data as the empty string, on which every property access is
undefined — nothing throws), or a parsed JSON object. -/
inductive WebBody where
  | nullBody
  | emptyBody
  | obj (d : WebPayload)
  deriving DecidableEq, Repr

/-- The observable outcome of the axios.get call in webApiFallback
(src/index.js:168): err covers a transport error, a timeout, or a
non-2xx status (axios rejects those by default); ok carries the 2xx
status code and the response body. -/
inductive WebResponse where
  | err
  | ok (status : Nat) (body : WebBody)
  deriving DecidableEq, Repr

/-- JS Number(undefined) and Number(object) are NaN;
typeof r.result === "number" keeps a number; the string "ref" maps to
null; any other string goes through Number (src/index.js:174). -/
def webGpaOf : WebResultVal → Option GVal
  | .num n => some (.num n)
  | .str s => if s = "ref" then none else some (jsNumberOfStr s)
  | .obj _ => some .nan
  | .undef => some .nan

/-- r.result === "ref" (strict string comparison, src/index.js:175). -/
def webResultIsRef : WebResultVal → Bool
  | .str s => s = "ref"
  | _ => false

/-- r.result?.ref_subjects when it is an array, else []
(src/index.js:176). -/
def webRefSubjects : WebResultVal → List String
  | .obj (some l) => l
  | _ => []

/-- The conversion of one web grade entry to the internal gpa-record
format (src/index.js:172-178): semester = Number(r.semester || 1),
gpa per webGpaOf, is_reference = r.result === "ref" or
r.passed === false, ref_subjects per webRefSubjects, created_at =
r.publishedAt || sentinel. -/
def convertWebGrade (r : WebGrade) : GpaRecord :=
  { semester := some (jsOrVal r.semester (.num 1)).toNumber
    gpa := webGpaOf r.result
    is_reference := webResultIsRef r.result || r.passed == some false
    ref_subjects := some (webRefSubjects r.result)
    created_at := some (jsOrStr r.publishedAt "2025-01-01T00:00:00Z") }

/-- The non-null return shape of webApiFallback
(src/index.js:179-194). -/
structure FallbackResult where
  source : String
  student : Student
  institute : Institute
  gpaRecords : List GpaRecord
  deriving DecidableEq, Repr

/-- data.instituteData?.f || d (optional chaining plus default). -/
def webInstField (i : Option WebInstitute) (f : WebInstitute → Option String) (d : String) : String :=
  match i with
  | none => d
  | some x => jsOrStr (f x) d

/-- The payload-to-internal conversion of webApiFallback
(src/index.js:171-194), shared by a parsed object body and the
zero-length body (on which every property access yields undefined,
behaving exactly like an all-absent payload). -/
def webConvertPayload (d : WebPayload) (roll regulation program : String) : FallbackResult :=
  { source := "web_api_btebresulthub"
    student := { roll_number := jsOrStr d.roll roll
                 program_name := jsOrStr d.exam program
                 regulation_year := jsOrStr d.regulation regulation
                 institute_code := webInstField d.instituteData (fun i => i.code) "00000"
                 created_at := jsOrStr d.time "2025-01-01T00:00:00Z" }
    institute := { name := webInstField d.instituteData (fun i => i.name) "Unknown"
                   district := webInstField d.instituteData (fun i => i.district) "Unknown"
                   institute_code := webInstField d.instituteData (fun i => i.code) "00000" }
    gpaRecords := (d.resultData.getD []).map convertWebGrade }

/-- The payload whose every field is absent: this is how the empty
string behaves under the property accesses of src/index.js:172-193
(each one is undefined). -/
def emptyWebPayload : WebPayload :=
  { roll := none
    exam := none
    regulation := none
    time := none
    instituteData := none
    resultData := none }

/-- The fallback escalator webApiFallback (src/index.js:163-198).  Its
whole body runs in one try/catch returning null on any throw; a 2xx
status other than 200 returns null; a JSON null body makes
data.resultData throw a TypeError, caught to null; a zero-length body
leaves resp.data as the empty string, whose property accesses are all
undefined (nothing throws), so the conversion proceeds as on an
all-absent payload; a parsed object body is converted to the internal
format. -/
def webApiFallback (resp : WebResponse) (roll regulation program : String) : Option FallbackResult :=
  match resp with
  | .err => none
  | .ok status body =>
    if status ≠ 200 then none
    else
      match body with
      | .nullBody => none
      | .emptyBody => some (webConvertPayload emptyWebPayload roll regulation program)
      | .obj d => some (webConvertPayload d roll regulation program)

/-- The fabricated record the escalator returns for a 200 response
with a zero-length body and the concrete request key of reqA: every
field defaulted, the request roll, regulation and program echoed
back, and no grade records. -/
def fbEmptyBody : FallbackResult :=
  { source := "web_api_btebresulthub"
    student := { roll_number := "123456"
                 program_name := "Diploma in Engineering"
                 regulation_year := "2022"
                 institute_code := "00000"
                 created_at := "2025-01-01T00:00:00Z" }
    institute := { institute_code := "00000"
                   name := "Unknown"
                   district := "Unknown" }
    gpaRecords := [] }

/-- The per-request environment: the behavior of every backend call the
resolution can make, for the query key of this request.  query n is the
primary lookup at project n, gpa n the gpa_records fetch at project n,
cgpa n the cgpa_records fetch at project n (the full stored rows; the
limit(20) is applied by the query), web the external fallback
response. -/
structure Env where
  query : String → QueryBehavior
  gpa : String → Fetch (List GpaRecord)
  cgpa : String → Fetch (List CgpaRow)
  web : WebResponse

/-- The per-project settlements raced by the dispatcher
(src/index.js:238-242). -/
def projectSettles (cfg : Config) (env : Env) : List (Settle Winner) :=
  (searchOrder cfg).map (fun n => projectSettle PROJECT_TIMEOUT_MS n (env.query n))

/-- The racing dispatcher (src/index.js:236-249): Promise.any over the
per-project promises; an AggregateError (all rejected) is caught and
leaves winner = null. -/
def dispatch (cfg : Config) (env : Env) : Option Winner :=
  (firstFulfilled (projectSettles cfg env)).map Prod.fst

/-- withTimeout(fetchGpaRecords(winner, roll), GPA_TIMEOUT_MS).catch(()
=> []) (src/index.js:254): the row list when it arrives before the
timeout, else []. -/
def gpaResolve (f : Fetch (List GpaRecord)) : List GpaRecord :=
  match f with
  | .ok v t => if t < GPA_TIMEOUT_MS then v else []
  | .err _ => []
  | .hangs => []

/-- Settlement of one per-project cgpa query inside
fetchCgpaRecordsAcrossProjects (src/index.js:137-153): the select
carries limit(20); an error or an empty row set throws (rejecting the
promise); a non-empty row set fulfils with the mapped rows; the whole
query is raced against CGPA_TIMEOUT_MS. -/
def cgpaSettle (f : Fetch (List CgpaRow)) : Settle (List CgpaOut) :=
  match f with
  | .ok rows t =>
      let limited := rows.take 20
      if t < CGPA_TIMEOUT_MS then
        if limited.isEmpty then .rej t else .ok (limited.map mapCgpaRow) t
      else .rej CGPA_TIMEOUT_MS
  | .err t => .rej (min t CGPA_TIMEOUT_MS)
  | .hangs => .rej CGPA_TIMEOUT_MS

/-- The per-project cgpa settlements (src/index.js:137-153). -/
def cgpaSettles (cfg : Config) (env : Env) : List (Settle (List CgpaOut)) :=
  (searchOrder cfg).map (fun n => cgpaSettle (env.cgpa n))

/-- fetchCgpaRecordsAcrossProjects (src/index.js:135-160): Promise.any
over the per-project queries, catching the all-rejected case to [].
Returns the value and its settlement time (the all-rejected case
settles once every query has rejected, which is at most
CGPA_TIMEOUT_MS; its value is [] either way). -/
def fetchCgpaRecordsAcrossProjects (cfg : Config) (env : Env) : List CgpaOut × Nat :=
  match firstFulfilled (cgpaSettles cfg env) with
  | some (v, t) => (v, t)
  | none => ([], CGPA_TIMEOUT_MS)

/-- withTimeout(fetchCgpaRecordsAcrossProjects(roll),
CGPA_TIMEOUT_MS).catch(() => []) (src/index.js:255): the outer race
keeps the value only if it settled before the (second) CGPA timeout. -/
def cgpaOuter (cfg : Config) (env : Env) : List CgpaOut :=
  let p := fetchCgpaRecordsAcrossProjects cfg env
  if p.2 < CGPA_TIMEOUT_MS then p.1 else []

/-- The instituteData object of both response paths
(src/index.js:263-267 and 292-296). -/
structure InstituteData where
  code : String
  name : String
  district : String
  deriving DecidableEq, Repr

/-- winner.institute?.f || d (optional chaining plus default,
src/index.js:264-266). -/
def instField (i : Option Institute) (f : Institute → String) (d : String) : String :=
  match i with
  | none => d
  | some x => jsOr (f x) d

/-- The single canonical response shape.  Fields that only one of the
two success paths emits are Option: the Supabase path emits no time,
found_in_project, projects_searched or source key at all
(src/index.js:258-276), while the web path emits all of them
(src/index.js:283-305). -/
structure CanonicalResult where
  success : Bool
  time : Option String
  roll : String
  regulation : String
  exam : String
  found_in_project : Option String
  projects_searched : Option (List String)
  source : Option String
  instituteData : InstituteData
  resultData : List ResultEntry
  cgpaData : List CgpaOut
  deriving DecidableEq, Repr

/-- The 404 body of src/index.js:309-317. -/
structure NotFoundBody where
  roll : String
  regulation : String
  exam : String
  projects_searched : List String
  web_apis_tried : List String
  deriving DecidableEq, Repr

/-- The possible responses of the search-result endpoint. -/
inductive Response where
  | badRequest
  | ok (r : CanonicalResult)
  | notFoundResp (nf : NotFoundBody)
  deriving DecidableEq, Repr

/-- The request body fields of the search-result endpoint
(src/index.js:233). -/
structure Req where
  rollNo : String
  regulation : String
  program : String
  deriving DecidableEq, Repr

/-- The Supabase-path response object transformed
(src/index.js:258-276). -/
def transformedOf (w : Winner) (gpas : List GpaRecord) (cgpas : List CgpaOut) : CanonicalResult :=
  { success := true
    time := none
    roll := w.student.roll_number
    regulation := w.student.regulation_year
    exam := w.student.program_name
    found_in_project := none
    projects_searched := none
    source := none
    instituteData := { code := instField w.institute (fun i => i.institute_code) "00000"
                       name := instField w.institute (fun i => i.name) "Unknown"
                       district := instField w.institute (fun i => i.district) "Unknown" }
    resultData := gpas.map mapGpaRecord
    cgpaData := cgpas }

/-- The web-fallback-path response object transformedWeb
(src/index.js:283-305): carries time, found_in_project =
fallback.source || "web_api", projects_searched = searchOrder ++
["web_apis"], source = "web_api", and an always-empty cgpaData. -/
def transformedWebOf (cfg : Config) (fb : FallbackResult) : CanonicalResult :=
  { success := true
    time := some (jsOr fb.student.created_at "2025-01-01T00:00:00Z")
    roll := fb.student.roll_number
    regulation := fb.student.regulation_year
    exam := fb.student.program_name
    found_in_project := some (jsOr fb.source "web_api")
    projects_searched := some (searchOrder cfg ++ ["web_apis"])
    source := some "web_api"
    instituteData := { code := jsOr fb.institute.institute_code "00000"
                       name := jsOr fb.institute.name "Unknown"
                       district := jsOr fb.institute.district "Unknown" }
    resultData := fb.gpaRecords.map mapGpaRecordWeb
    cgpaData := [] }

/-- The winner branch of the handler (src/index.js:251-277): fetch
gpas from the winning project and cgpas across all projects (both
timeout-bounded and caught to []), then respond with transformed. -/
def supabaseBranch (cfg : Config) (env : Env) (w : Winner) : Response :=
  .ok (transformedOf w (gpaResolve (env.gpa w.project_name)) (cgpaOuter cfg env))

/-- The no-winner branch of the handler (src/index.js:280-317): try the
web fallback; if it returns a record respond with transformedWeb, else
404 with the attempted sources. -/
def fallbackBranch (cfg : Config) (env : Env) (req : Req) : Response :=
  match webApiFallback env.web req.rollNo req.regulation req.program with
  | some fb => .ok (transformedWebOf cfg fb)
  | none => .notFoundResp { roll := req.rollNo
                            regulation := req.regulation
                            exam := req.program
                            projects_searched := searchOrder cfg
                            web_apis_tried := ["btebresulthub"] }

/-- The search-result endpoint (src/index.js:232-318): validate the
body, race the configured projects, and take the winner branch or the
fallback branch. -/
def searchResult (cfg : Config) (env : Env) (req : Req) : Response :=
  if req.rollNo = "" ∨ req.regulation = "" ∨ req.program = "" then .badRequest
  else
    match dispatch cfg env with
    | some w => supabaseBranch cfg env w
    | none => fallbackBranch cfg env req

/-- A project behavior the dispatcher counts as a miss: a match
arriving at or after the per-source timeout, no response at all, a
thrown error, or an absent (null) record. -/
def isMissQB (T : Nat) : QueryBehavior → Prop
  | .found _ _ t => T ≤ t
  | .notFound _ => True
  | .fails _ => True
  | .hangs => True

instance (T : Nat) (b : QueryBehavior) : Decidable (isMissQB T b) :=
  match b with
  | .found _ _ t => inferInstanceAs (Decidable (T ≤ t))
  | .notFound _ => inferInstanceAs (Decidable True)
  | .fails _ => inferInstanceAs (Decidable True)
  | .hangs => inferInstanceAs (Decidable True)

/-- A concrete student row used by closed witness theorems. -/
def stuA : Student :=
  { roll_number := "123456"
    program_name := "Diploma in Engineering"
    regulation_year := "2022"
    institute_code := "10001"
    created_at := "2024-01-01" }

/-- A concrete institute row used by closed witness theorems. -/
def instA : Institute :=
  { institute_code := "10001"
    name := "Dhaka Polytechnic"
    district := "Dhaka" }

/-- A two-project configuration used by closed witness theorems. -/
def cfgAB : Config :=
  { current_project := none
    search_order := some ["A", "B"]
    projects := ["A", "B"] }

/-- A concrete valid request used by closed witness theorems. -/
def reqA : Req :=
  { rollNo := "123456"
    regulation := "2022"
    program := "Diploma in Engineering" }

/-- An environment where every project misses (null student), every
enrichment fetch errors, and the web fallback has a transport error. -/
def envAllMiss : Env :=
  { query := fun _ => .notFound 5
    gpa := fun _ => .err 1
    cgpa := fun _ => .err 1
    web := .err }

/-- A cgpa fetch behavior that counts as a miss for the cross-project
race: an empty row set, an error, a timeout, or no response. -/
def cgpaMiss : Fetch (List CgpaRow) → Prop
  | .ok rows t => rows = [] ∨ CGPA_TIMEOUT_MS ≤ t
  | .err _ => True
  | .hangs => True

instance (f : Fetch (List CgpaRow)) : Decidable (cgpaMiss f) :=
  match f with
  | .ok rows t => inferInstanceAs (Decidable (rows = [] ∨ CGPA_TIMEOUT_MS ≤ t))
  | .err _ => inferInstanceAs (Decidable True)
  | .hangs => inferInstanceAs (Decidable True)

/-- An ordinary stored grade row with a numeric gpa. -/
def gOrdinary : GpaRecord :=
  { semester := some (.num 1)
    gpa := some (.num 3)
    is_reference := false
    ref_subjects := some []
    created_at := some "2024-02-01" }

/-- An ordinary stored cgpa row. -/
def rowCg : CgpaRow :=
  { semester := some (.num 8)
    cgpa := some (.num 3)
    created_at := some "2024-06-01" }

/-- An environment where project A has the matching record (at 10 ms)
and project B has none; enrichment succeeds everywhere; the web
fallback would error (it is never reached). -/
def envAWins : Env :=
  { query := fun n => if n = "A" then .found stuA (some instA) 10 else .notFound 5
    gpa := fun _ => .ok [gOrdinary] 20
    cgpa := fun _ => .ok [rowCg] 30
    web := .err }

/-- The winner produced by envAWins. -/
def winnerA : Winner :=
  { student := stuA
    institute := some instA
    project_name := "A" }

/-- The canonical result of the envAWins run. -/
def rAWins : CanonicalResult :=
  transformedOf winnerA (gpaResolve (envAWins.gpa "A")) (cgpaOuter cfgAB envAWins)

/-- A gpa fetch behavior that the winner-path enrichment treats as a
failure: a timeout, an error, or no response. -/
def gpaMiss : Fetch (List GpaRecord) → Prop
  | .ok _ t => GPA_TIMEOUT_MS ≤ t
  | .err _ => True
  | .hangs => True

instance (f : Fetch (List GpaRecord)) : Decidable (gpaMiss f) :=
  match f with
  | .ok _ t => inferInstanceAs (Decidable (GPA_TIMEOUT_MS ≤ t))
  | .err _ => inferInstanceAs (Decidable True)
  | .hangs => inferInstanceAs (Decidable True)

/-- The resultData of a response, when it is a success response. -/
def resultDataOf : Response → Option (List ResultEntry)
  | .ok r => some r.resultData
  | _ => none

/-- The cgpaData of a response, when it is a success response. -/
def cgpaDataOf : Response → Option (List CgpaOut)
  | .ok r => some r.cgpaData
  | _ => none

/-- A web payload with one grade entry carrying the explicit "ref"
marker. -/
def wgRefMarker : WebGrade :=
  { semester := some (.num 2)
    result := .str "ref"
    passed := none
    publishedAt := some "2024-04-04" }

/-- A web payload used by the fallback-path witness run. -/
def payloadW : WebPayload :=
  { roll := some "999"
    exam := none
    regulation := none
    time := none
    instituteData := none
    resultData := some [wgRefMarker] }

/-- An environment where every project misses and the web fallback
returns a 200 response with payloadW. -/
def envWebWins : Env :=
  { query := fun _ => .notFound 5
    gpa := fun _ => .err 1
    cgpa := fun _ => .err 1
    web := .ok 200 (.obj payloadW) }

/-- The fallback record produced by the envWebWins run. -/
def fbW : FallbackResult :=
  (webApiFallback envWebWins.web reqA.rollNo reqA.regulation reqA.program).getD
    { source := ""
      student := stuA
      institute := instA
      gpaRecords := [] }

/-- The canonical result of the envWebWins run. -/
def rWeb : CanonicalResult := transformedWebOf cfgAB fbW

/-- A web grade entry whose grade value is entirely absent. -/
def wgAbsent : WebGrade :=
  { semester := some (.num 2)
    result := .undef
    passed := none
    publishedAt := some "2024-04-04" }

/-- A canonical grade entry viewed as the JS object the mapping would
literally read when re-applied: the mapping accesses created_at,
is_reference and ref_subjects, none of which exist on a canonical
entry (undefined is falsy and is not an array), while semester and gpa
read the canonical string values. -/
def canonEntryLiteralFields (e : ResultEntry) : GpaRecord :=
  { semester := some (.str e.semester)
    gpa := some (.str e.gpa)
    is_reference := false
    ref_subjects := none
    created_at := none }

/-- The canonical-to-raw field correspondence: publishedAt stands for
created_at, passed for the negated is_reference, result.ref_subjects
for ref_subjects. -/
def canonEntryToRaw (e : ResultEntry) : GpaRecord :=
  { semester := some (.str e.semester)
    gpa := some (.str e.gpa)
    is_reference := !e.passed
    ref_subjects := some e.result.ref_subjects
    created_at := some e.publishedAt }

/-- A concrete already-canonical entry with every field populated. -/
def eCanon : ResultEntry :=
  { publishedAt := "2024-03-01"
    semester := "4"
    result := { gpa := "ref"
                ref_subjects := ["66611"] }
    passed := false
    gpa := "ref" }

theorem firstFulfilled_eq_none {α : Type} (xs : List (Settle α)) :
    firstFulfilled xs = none ↔ ∀ x ∈ xs, ∃ t, x = Settle.rej t := by
  induction xs with
  | nil => simp [firstFulfilled]
  | cons x rest ih =>
    cases x with
    | ok v t =>
      constructor
      · intro h
        exfalso
        simp only [firstFulfilled] at h
        cases hr : firstFulfilled rest with
        | none => rw [hr] at h; exact Option.noConfusion h
        | some p =>
          obtain ⟨w, s⟩ := p
          rw [hr] at h
          dsimp at h
          split at h <;> exact Option.noConfusion h
      · intro h
        have := h (.ok v t) (List.mem_cons_self _ _)
        rcases this with ⟨t2, ht2⟩
        exact absurd ht2 (by simp)
    | rej t =>
      simp only [firstFulfilled, List.mem_cons]
      rw [ih]
      constructor
      · intro h y hy
        rcases hy with rfl | hy
        · exact ⟨t, rfl⟩
        · exact h y hy
      · intro h y hy
        exact h y (Or.inr hy)

theorem firstFulfilled_spec {α : Type} (xs : List (Settle α)) (v : α) (t : Nat)
    (h : firstFulfilled xs = some (v, t)) :
    Settle.ok v t ∈ xs ∧ ∀ w s, Settle.ok w s ∈ xs → t ≤ s := by
  induction xs generalizing v t with
  | nil => exact absurd h (by simp [firstFulfilled])
  | cons x rest ih =>
    cases x with
    | ok v0 t0 =>
      simp only [firstFulfilled] at h
      cases hr : firstFulfilled rest with
      | none =>
        rw [hr] at h
        dsimp at h
        injection h with h1
        injection h1 with hv ht
        subst hv; subst ht
        refine ⟨List.mem_cons_self _ _, ?_⟩
        intro w s hws
        rcases List.mem_cons.mp hws with heq | hmem
        · injection heq with _ hts
          omega
        · have hall := (firstFulfilled_eq_none rest).mp hr _ hmem
          rcases hall with ⟨t2, ht2⟩
          exact absurd ht2 (by simp)
      | some p =>
        obtain ⟨w0, s0⟩ := p
        rw [hr] at h
        dsimp at h
        obtain ⟨hmem0, hmin0⟩ := ih w0 s0 hr
        by_cases hc : s0 < t0
        · rw [if_pos hc] at h
          injection h with h1
          injection h1 with hv ht
          subst hv; subst ht
          refine ⟨List.mem_cons_of_mem _ hmem0, ?_⟩
          intro w s hws
          rcases List.mem_cons.mp hws with heq | hmem
          · injection heq with _ hts
            omega
          · exact hmin0 w s hmem
        · rw [if_neg hc] at h
          injection h with h1
          injection h1 with hv ht
          subst hv; subst ht
          refine ⟨List.mem_cons_self _ _, ?_⟩
          intro w s hws
          rcases List.mem_cons.mp hws with heq | hmem
          · injection heq with _ hts
            omega
          · have := hmin0 w s hmem
            omega
    | rej t0 =>
      simp only [firstFulfilled] at h
      obtain ⟨hmem0, hmin0⟩ := ih v t h
      refine ⟨List.mem_cons_of_mem _ hmem0, ?_⟩
      intro w s hws
      rcases List.mem_cons.mp hws with heq | hmem
      · exact absurd heq (by simp)
      · exact hmin0 w s hmem

/-- Every fulfilled value of the race satisfies any property shared by
all fulfilled settlements of the list. -/
theorem firstFulfilled_value_prop {α : Type} (P : α → Prop) (xs : List (Settle α))
    (hall : ∀ v t, Settle.ok v t ∈ xs → P v) (v : α) (t : Nat)
    (h : firstFulfilled xs = some (v, t)) : P v :=
  hall v t (firstFulfilled_spec xs v t h).1

theorem projectSettle_rej_of_miss (T : Nat) (name : String) (b : QueryBehavior)
    (h : isMissQB T b) : ∃ t, projectSettle T name b = .rej t := by
  cases b with
  | found s i t =>
    have ht : ¬ t < T := by
      have : T ≤ t := h
      omega
    exact ⟨T, by simp [projectSettle, ht]⟩
  | notFound t => exact ⟨min t T, rfl⟩
  | fails t => exact ⟨min t T, rfl⟩
  | hangs => exact ⟨T, rfl⟩

theorem projectSettle_ok_inv (T : Nat) (name : String) (b : QueryBehavior)
    (w : Winner) (t : Nat) (h : projectSettle T name b = .ok w t) :
    b = .found w.student w.institute t ∧ w.project_name = name ∧ t < T := by
  cases b with
  | found s i t0 =>
    by_cases ht : t0 < T
    · simp only [projectSettle, if_pos ht] at h
      injection h with hw hts
      subst hts
      subst hw
      exact ⟨rfl, rfl, ht⟩
    · simp only [projectSettle, if_neg ht] at h
      exact absurd h (by simp)
  | notFound t0 => exact absurd h (by simp [projectSettle])
  | fails t0 => exact absurd h (by simp [projectSettle])
  | hangs => exact absurd h (by simp [projectSettle])

/-- C2: for every query key and every ordered set of configured
sources, the dispatcher resolves with the first source reporting a
non-empty primary match (earliest settlement among the fulfilled
per-source promises); a source that times out, errors, or returns an
absent record counts as a miss; and when every source misses the
dispatcher yields no winner and the handler escalates to the fallback
branch rather than erroring. -/
theorem C2_dispatcher_first_success (cfg : Config) (env : Env) (req : Req)
    (hreq : ¬(req.rollNo = "" ∨ req.regulation = "" ∨ req.program = "")) :
    ((∀ n ∈ searchOrder cfg, isMissQB PROJECT_TIMEOUT_MS (env.query n)) →
        dispatch cfg env = none ∧
        searchResult cfg env req = fallbackBranch cfg env req) ∧
    (∀ w, dispatch cfg env = some w →
        (∃ n t, n ∈ searchOrder cfg ∧ t < PROJECT_TIMEOUT_MS ∧
            env.query n = .found w.student w.institute t ∧ w.project_name = n ∧
            (∀ v s, Settle.ok v s ∈ projectSettles cfg env → t ≤ s)) ∧
        searchResult cfg env req = supabaseBranch cfg env w) := by
  constructor
  · intro hmiss
    have hnone : dispatch cfg env = none := by
      unfold dispatch
      have : firstFulfilled (projectSettles cfg env) = none := by
        rw [firstFulfilled_eq_none]
        intro x hx
        rcases List.mem_map.mp hx with ⟨n, hn, rfl⟩
        exact projectSettle_rej_of_miss _ _ _ (hmiss n hn)
      rw [this]
      rfl
    refine ⟨hnone, ?_⟩
    unfold searchResult
    rw [if_neg hreq, hnone]
  · intro w hw
    unfold dispatch at hw
    rcases Option.map_eq_some'.mp hw with ⟨⟨v, t⟩, hff, hv⟩
    dsimp at hv
    subst hv
    obtain ⟨hmem, hmin⟩ := firstFulfilled_spec _ _ _ hff
    rcases List.mem_map.mp hmem with ⟨n, hn, hsettle⟩
    obtain ⟨hb, hname, ht⟩ := projectSettle_ok_inv _ _ _ _ _ hsettle
    refine ⟨⟨n, t, hn, ht, hb, hname, hmin⟩, ?_⟩
    unfold searchResult
    rw [if_neg hreq]
    have hd : dispatch cfg env = some v := hw
    rw [hd]

theorem C2_dispatcher_first_success_witness :
    dispatch cfgAB envAllMiss = none ∧
    searchResult cfgAB envAllMiss reqA = fallbackBranch cfgAB envAllMiss reqA :=
  (C2_dispatcher_first_success cfgAB envAllMiss reqA (by decide)).1 (by decide)

theorem searchOrder_set_current (cfg : Config) (p : Option String) :
    searchOrder { cfg with current_project := p } = searchOrder cfg := by
  cases cfg
  rfl

/-- The search-result endpoint reads the configuration only through
searchOrder (src/index.js:236, 290, 315); it never reads
current_project. -/
theorem searchResult_congr_order (cfg cfg2 : Config) (env : Env) (req : Req)
    (h : searchOrder cfg = searchOrder cfg2) :
    searchResult cfg env req = searchResult cfg2 env req := by
  unfold searchResult dispatch projectSettles supabaseBranch fallbackBranch
    cgpaOuter fetchCgpaRecordsAcrossProjects cgpaSettles transformedWebOf
  rw [h]

/-- C10: the outcome of a resolution is independent of the
process-wide current-source pointer: switching the current project (as
the switch endpoint does) never changes what the resolution entry
point returns, and any two values of the pointer give the same result,
because resolution reads only the configured search order. -/
theorem C10_resolution_independent_of_current_pointer (cfg : Config) (env : Env)
    (req : Req) (name : String) (p q : Option String) :
    searchResult (switchProject cfg name).1 env req = searchResult cfg env req ∧
    searchResult { cfg with current_project := p } env req
      = searchResult { cfg with current_project := q } env req := by
  constructor
  · apply searchResult_congr_order
    unfold switchProject
    by_cases hmem : name ∈ cfg.projects
    · rw [if_pos hmem]
      exact searchOrder_set_current cfg (some name)
    · rw [if_neg hmem]
  · apply searchResult_congr_order
    rw [searchOrder_set_current cfg p, searchOrder_set_current cfg q]

theorem cgpaSettle_rej_of_miss (f : Fetch (List CgpaRow)) (h : cgpaMiss f) :
    ∃ t, cgpaSettle f = .rej t := by
  cases f with
  | ok rows t =>
    rcases h with hrows | ht
    · subst hrows
      by_cases htT : t < CGPA_TIMEOUT_MS
      · exact ⟨t, by simp [cgpaSettle, htT]⟩
      · exact ⟨CGPA_TIMEOUT_MS, by simp [cgpaSettle, htT]⟩
    · have hnot : ¬ t < CGPA_TIMEOUT_MS := by omega
      exact ⟨CGPA_TIMEOUT_MS, by simp [cgpaSettle, hnot]⟩
  | err t => exact ⟨min t CGPA_TIMEOUT_MS, rfl⟩
  | hangs => exact ⟨CGPA_TIMEOUT_MS, rfl⟩

theorem cgpaSettle_ok_inv (f : Fetch (List CgpaRow)) (v : List CgpaOut) (t : Nat)
    (h : cgpaSettle f = .ok v t) :
    ∃ rows, f = .ok rows t ∧ t < CGPA_TIMEOUT_MS ∧ rows.take 20 ≠ [] ∧
      v = (rows.take 20).map mapCgpaRow := by
  cases f with
  | ok rows t0 =>
    by_cases htT : t0 < CGPA_TIMEOUT_MS
    · by_cases hemp : (rows.take 20).isEmpty
      · simp only [cgpaSettle, if_pos htT, if_pos hemp] at h
        exact absurd h (by simp)
      · simp only [cgpaSettle, if_pos htT, if_neg hemp] at h
        injection h with hv ht
        subst ht
        exact ⟨rows, rfl, htT, by simpa [List.isEmpty_iff] using hemp, hv.symm⟩
    · simp only [cgpaSettle, if_neg htT] at h
      exact absurd h (by simp)
  | err t0 => exact absurd h (by simp [cgpaSettle])
  | hangs => exact absurd h (by simp [cgpaSettle])

/-- C4: cross-source cumulative enrichment races over every source of
the configured search order, independently of which source won the
primary match (the function does not take the winner at all); the
first source returning a non-empty cumulative sequence wins, and if
every source returns empty, errors, or times out, the overall result
is the empty sequence (the embedded function is total, so no exception
escapes it). -/
theorem C4_cgpa_first_nonempty_or_empty (cfg : Config) (env : Env) :
    ((∀ n ∈ searchOrder cfg, cgpaMiss (env.cgpa n)) →
        fetchCgpaRecordsAcrossProjects cfg env = ([], CGPA_TIMEOUT_MS) ∧
        cgpaOuter cfg env = []) ∧
    (∀ v t, firstFulfilled (cgpaSettles cfg env) = some (v, t) →
        fetchCgpaRecordsAcrossProjects cfg env = (v, t) ∧ v ≠ [] ∧
        (∀ w s, Settle.ok w s ∈ cgpaSettles cfg env → t ≤ s) ∧
        cgpaOuter cfg env = v) := by
  constructor
  · intro hmiss
    have hnone : firstFulfilled (cgpaSettles cfg env) = none := by
      rw [firstFulfilled_eq_none]
      intro x hx
      rcases List.mem_map.mp hx with ⟨n, hn, rfl⟩
      exact cgpaSettle_rej_of_miss _ (hmiss n hn)
    have hfetch : fetchCgpaRecordsAcrossProjects cfg env = ([], CGPA_TIMEOUT_MS) := by
      unfold fetchCgpaRecordsAcrossProjects
      rw [hnone]
    refine ⟨hfetch, ?_⟩
    unfold cgpaOuter
    rw [hfetch]
    simp
  · intro v t h
    have hfetch : fetchCgpaRecordsAcrossProjects cfg env = (v, t) := by
      unfold fetchCgpaRecordsAcrossProjects
      rw [h]
    obtain ⟨hmem, hmin⟩ := firstFulfilled_spec _ _ _ h
    rcases List.mem_map.mp hmem with ⟨n, hn, hsettle⟩
    obtain ⟨rows, _, htT, htake, hv⟩ := cgpaSettle_ok_inv _ _ _ hsettle
    have hvne : v ≠ [] := by
      rw [hv]
      simpa using htake
    refine ⟨hfetch, hvne, hmin, ?_⟩
    unfold cgpaOuter
    rw [hfetch]
    simp [htT]

theorem C4_cgpa_first_nonempty_or_empty_witness :
    fetchCgpaRecordsAcrossProjects cfgAB envAllMiss = ([], CGPA_TIMEOUT_MS) ∧
    cgpaOuter cfgAB envAllMiss = [] :=
  (C4_cgpa_first_nonempty_or_empty cfgAB envAllMiss).1 (by decide)

/-- Every value the cgpa race can deliver has at most 20 entries,
because each per-project query carries limit(20)
(src/index.js:143). -/
theorem cgpaOuter_length_le (cfg : Config) (env : Env) :
    (cgpaOuter cfg env).length ≤ 20 := by
  unfold cgpaOuter
  cases hff : firstFulfilled (cgpaSettles cfg env) with
  | none =>
    unfold fetchCgpaRecordsAcrossProjects
    rw [hff]
    simp
  | some p =>
    obtain ⟨v, t⟩ := p
    have hfetch : fetchCgpaRecordsAcrossProjects cfg env = (v, t) := by
      unfold fetchCgpaRecordsAcrossProjects
      rw [hff]
    rw [hfetch]
    obtain ⟨hmem, _⟩ := firstFulfilled_spec _ _ _ hff
    rcases List.mem_map.mp hmem with ⟨n, hn, hsettle⟩
    obtain ⟨rows, _, _, _, hv⟩ := cgpaSettle_ok_inv _ _ _ hsettle
    have hlen : v.length ≤ 20 := by
      rw [hv, List.length_map, List.length_take]
      omega
    dsimp only
    split <;> simp [hlen]

/-- C7: for every resolution that returns a successful canonical
result, the cgpaData sequence has at most 20 entries, regardless of
how many records a source holds (the per-project query carries
limit(20) and the web path emits an empty sequence). -/
theorem C7_cgpaData_at_most_20 (cfg : Config) (env : Env) (req : Req)
    (r : CanonicalResult) (h : searchResult cfg env req = .ok r) :
    r.cgpaData.length ≤ 20 := by
  unfold searchResult at h
  by_cases hbad : req.rollNo = "" ∨ req.regulation = "" ∨ req.program = ""
  · rw [if_pos hbad] at h
    exact absurd h (by simp)
  · rw [if_neg hbad] at h
    cases hd : dispatch cfg env with
    | some w =>
      rw [hd] at h
      have h2 : supabaseBranch cfg env w = Response.ok r := h
      unfold supabaseBranch at h2
      injection h2 with h1
      rw [← h1]
      exact cgpaOuter_length_le cfg env
    | none =>
      rw [hd] at h
      have h2 : fallbackBranch cfg env req = Response.ok r := h
      unfold fallbackBranch at h2
      cases hweb : webApiFallback env.web req.rollNo req.regulation req.program with
      | some fb =>
        rw [hweb] at h2
        injection h2 with h1
        rw [← h1]
        simp [transformedWebOf]
      | none =>
        rw [hweb] at h2
        exact absurd h2 (by simp)

theorem C7_cgpaData_at_most_20_witness : rAWins.cgpaData.length ≤ 20 :=
  C7_cgpaData_at_most_20 cfgAB envAWins reqA rAWins (by decide)

/-- The dispatcher reads the environment only through the per-project
query behaviors. -/
theorem dispatch_congr (cfg : Config) (env env2 : Env)
    (h : env2.query = env.query) : dispatch cfg env2 = dispatch cfg env := by
  unfold dispatch projectSettles
  rw [h]

/-- The cross-project cgpa race reads the environment only through the
per-project cgpa behaviors. -/
theorem cgpaOuter_congr (cfg : Config) (env env2 : Env)
    (h : env2.cgpa = env.cgpa) : cgpaOuter cfg env2 = cgpaOuter cfg env := by
  unfold cgpaOuter fetchCgpaRecordsAcrossProjects cgpaSettles
  rw [h]

/-- C6: primary grade enrichment is fetched only from the winning
source (the response is a function of env.gpa at the winning project
name alone); on timeout or error its sequence degrades to empty while
the overall resolution still succeeds; and the two enrichment fetches
are isolated: changing only the cgpa behaviors never changes
resultData, and changing only the gpa behaviors never changes
cgpaData. -/
theorem C6_enrichment_only_winner_and_isolated (cfg : Config) (env env2 : Env)
    (req : Req) (w : Winner)
    (hreq : ¬(req.rollNo = "" ∨ req.regulation = "" ∨ req.program = ""))
    (hw : dispatch cfg env = some w) :
    searchResult cfg env req =
      .ok (transformedOf w (gpaResolve (env.gpa w.project_name)) (cgpaOuter cfg env)) ∧
    (gpaMiss (env.gpa w.project_name) → gpaResolve (env.gpa w.project_name) = []) ∧
    (env2.query = env.query → env2.gpa = env.gpa →
        resultDataOf (searchResult cfg env2 req) = resultDataOf (searchResult cfg env req)) ∧
    (env2.query = env.query → env2.cgpa = env.cgpa →
        cgpaDataOf (searchResult cfg env2 req) = cgpaDataOf (searchResult cfg env req)) := by
  have hmain : searchResult cfg env req =
      .ok (transformedOf w (gpaResolve (env.gpa w.project_name)) (cgpaOuter cfg env)) := by
    unfold searchResult
    rw [if_neg hreq, hw]
    rfl
  refine ⟨hmain, ?_, ?_, ?_⟩
  · intro hm
    cases hg : env.gpa w.project_name with
    | ok v t =>
      rw [hg] at hm
      have ht : GPA_TIMEOUT_MS ≤ t := hm
      have hnot : ¬ t < GPA_TIMEOUT_MS := by omega
      simp [gpaResolve, hnot]
    | err t => rfl
    | hangs => rfl
  · intro h1 h2
    have hd2 : dispatch cfg env2 = some w := (dispatch_congr cfg env env2 h1).trans hw
    have e1 : searchResult cfg env2 req =
        .ok (transformedOf w (gpaResolve (env2.gpa w.project_name)) (cgpaOuter cfg env2)) := by
      unfold searchResult
      rw [if_neg hreq, hd2]
      rfl
    rw [e1, hmain]
    simp [resultDataOf, transformedOf, h2]
  · intro h1 h2
    have hd2 : dispatch cfg env2 = some w := (dispatch_congr cfg env env2 h1).trans hw
    have e1 : searchResult cfg env2 req =
        .ok (transformedOf w (gpaResolve (env2.gpa w.project_name)) (cgpaOuter cfg env2)) := by
      unfold searchResult
      rw [if_neg hreq, hd2]
      rfl
    rw [e1, hmain]
    simp [cgpaDataOf, transformedOf]
    exact cgpaOuter_congr cfg env env2 h2

theorem C6_enrichment_only_winner_and_isolated_witness :
    searchResult cfgAB envAWins reqA =
      .ok (transformedOf winnerA (gpaResolve (envAWins.gpa winnerA.project_name))
        (cgpaOuter cfgAB envAWins)) :=
  (C6_enrichment_only_winner_and_isolated cfgAB envAWins envAWins reqA winnerA
    (by decide) (by decide)).1

/-- C5 (counterexample): a 200 response whose payload is empty (a
zero-length body, which axios leaves as the empty string in
resp.data) is NOT normalized to null: every property access on the
empty string is undefined, nothing throws, and the escalator returns
a fabricated success record echoing the request key with defaulted
fields — not NotFound. -/
theorem C5_counterexample :
    webApiFallback (.ok 200 .emptyBody) "123456" "2022" "Diploma in Engineering"
      = some fbEmptyBody := by decide

/-- C5 (amended): the fallback escalator normalizes any transport
error (axios also rejects timeouts and non-2xx statuses there), any
2xx status other than 200, and a JSON null payload to null, and the
embedded function is total, so no exception escapes its boundary (the
whole body of webApiFallback runs inside one try/catch returning
null); but an empty (zero-length) payload is not normalized to null:
the escalator returns a fabricated success record built from the
request key and the default values, with no grade records. -/
theorem C5_fallback_error_paths_to_none (roll regulation program : String) :
    webApiFallback .err roll regulation program = none ∧
    (∀ status body, status ≠ 200 →
        webApiFallback (.ok status body) roll regulation program = none) ∧
    webApiFallback (.ok 200 .nullBody) roll regulation program = none ∧
    webApiFallback (.ok 200 .emptyBody) roll regulation program
      = some (webConvertPayload emptyWebPayload roll regulation program) ∧
    (webConvertPayload emptyWebPayload roll regulation program).student.roll_number = roll ∧
    (webConvertPayload emptyWebPayload roll regulation program).gpaRecords = [] := by
  refine ⟨rfl, ?_, rfl, rfl, rfl, rfl⟩
  intro status body hs
  unfold webApiFallback
  dsimp only
  rw [if_pos hs]

theorem C5_fallback_error_paths_to_none_witness :
    webApiFallback (.ok 503 .nullBody) "123456" "2022" "Diploma in Engineering" = none :=
  (C5_fallback_error_paths_to_none "123456" "2022" "Diploma in Engineering").2.1
    503 .nullBody (by decide)

/-- C9: every resolution answered by the web fallback has an empty
cgpaData sequence: transformedWeb hard-codes cgpaData = []
(src/index.js:304) and the cgpa race never runs on the fallback
path. -/
theorem C9_fallback_cgpa_empty (cfg : Config) (env : Env) (req : Req)
    (r : CanonicalResult) :
    (∀ fb, (transformedWebOf cfg fb).cgpaData = []) ∧
    (searchResult cfg env req = .ok r → r.source = some "web_api" →
        r.cgpaData = []) := by
  constructor
  · intro fb
    rfl
  · intro h hsrc
    unfold searchResult at h
    by_cases hbad : req.rollNo = "" ∨ req.regulation = "" ∨ req.program = ""
    · rw [if_pos hbad] at h
      exact absurd h (by simp)
    · rw [if_neg hbad] at h
      cases hd : dispatch cfg env with
      | some w =>
        rw [hd] at h
        have h2 : supabaseBranch cfg env w = Response.ok r := h
        unfold supabaseBranch at h2
        injection h2 with h1
        rw [← h1] at hsrc
        exact absurd hsrc (by simp [transformedOf])
      | none =>
        rw [hd] at h
        have h2 : fallbackBranch cfg env req = Response.ok r := h
        unfold fallbackBranch at h2
        cases hweb : webApiFallback env.web req.rollNo req.regulation req.program with
        | some fb =>
          rw [hweb] at h2
          injection h2 with h1
          rw [← h1]
          rfl
        | none =>
          rw [hweb] at h2
          exact absurd h2 (by simp)

theorem C9_fallback_cgpa_empty_witness : rWeb.cgpaData = [] :=
  (C9_fallback_cgpa_empty cfgAB envWebWins reqA rWeb).2 (by decide) (by decide)

/-- C3 (counterexample): a concrete run where source A wins the
primary race, source B has no record: the canonical result carries no
provenance marker at all (neither a source nor a found_in_project key
exists on the Supabase-path response object of src/index.js:258-276),
so the provenance does not identify A. -/
theorem C3_counterexample :
    searchResult cfgAB envAWins reqA = Response.ok rAWins ∧
    rAWins.source = none ∧ rAWins.found_in_project = none := by decide

/-- C3 (amended): only fallback-answered results carry a provenance
marker: the web path sets source = "web_api" and found_in_project to
the fallback identifier, while every Supabase-path result carries no
provenance marker, so a result won by a configured source does not
identify that source. -/
theorem C3_provenance_only_on_fallback :
    (∀ w gpas cgpas, (transformedOf w gpas cgpas).source = none ∧
        (transformedOf w gpas cgpas).found_in_project = none) ∧
    (∀ cfg fb, (transformedWebOf cfg fb).source = some "web_api" ∧
        (transformedWebOf cfg fb).found_in_project = some (jsOr fb.source "web_api")) :=
  ⟨fun _ _ _ => ⟨rfl, rfl⟩, fun _ _ => ⟨rfl, rfl⟩⟩

/-- C1 (counterexample): the Supabase mapping of a stored row with a
null gpa and is_reference = false yields gpa = "ref" but passed = true
(the missing grade does not force passed = false); and on the web
path an absent grade value converts to Number(undefined) = NaN and
stringifies to "NaN", not to "ref". -/
theorem C1_counterexample :
    (mapGpaRecord gMissingNoRef).gpa = "ref" ∧
    (mapGpaRecord gMissingNoRef).passed = true ∧
    (mapGpaRecordWeb (convertWebGrade wgAbsent)).gpa = "NaN" := by decide

/-- C1 (amended): for every grade record with a null gpa value both
mapping paths emit the marker "ref" in the gpa field (also inside the
nested result object), but the missing grade does not force
passed = false: passed equals the negation of the is_reference flag on
both paths.  On the web conversion an explicit "ref" result marker
does force is_reference, hence passed = false after mapping. -/
theorem C1_null_gpa_maps_to_ref (g : GpaRecord) (r : WebGrade)
    (hg : g.gpa = none) :
    (mapGpaRecord g).gpa = "ref" ∧ (mapGpaRecordWeb g).gpa = "ref" ∧
    (mapGpaRecord g).result.gpa = "ref" ∧
    (mapGpaRecord g).passed = !g.is_reference ∧
    (mapGpaRecordWeb g).passed = !g.is_reference ∧
    (webResultIsRef r.result = true →
        (mapGpaRecordWeb (convertWebGrade r)).passed = false) := by
  refine ⟨?_, ?_, ?_, rfl, rfl, ?_⟩
  · simp [mapGpaRecord, gpaField, hg]
  · simp [mapGpaRecordWeb, gpaField, hg]
  · simp [mapGpaRecord, gpaField, hg]
  · intro h
    simp [mapGpaRecordWeb, convertWebGrade, h]

theorem C1_null_gpa_maps_to_ref_witness :
    (mapGpaRecordWeb (convertWebGrade wgRefMarker)).passed = false :=
  (C1_null_gpa_maps_to_ref gMissingNoRef wgRefMarker (by decide)).2.2.2.2.2 (by decide)

/-- C8 (counterexample): applying the canonical-output mapping to an
already-canonical, fully-populated entry does not return it unchanged:
the mapping reads the raw field names (created_at, is_reference,
ref_subjects), which are absent on a canonical entry, so passed flips
to true, publishedAt resets to the sentinel and ref_subjects
empties. -/
theorem C8_counterexample :
    mapGpaRecord (canonEntryLiteralFields eCanon) ≠ eCanon ∧
    (mapGpaRecord (canonEntryLiteralFields eCanon)).passed = true ∧
    eCanon.passed = false ∧
    (mapGpaRecord (canonEntryLiteralFields eCanon)).publishedAt
      = "2025-01-01T00:00:00Z" := by decide

/-- C8 (amended): the mapping is idempotent modulo the canonical-to-raw
field correspondence: re-normalizing a canonical entry whose semester
and publishedAt are non-empty and whose nested result gpa agrees with
its top-level gpa reproduces the entry exactly; applied literally to
the canonical field names it is not idempotent. -/
theorem C8_normalize_idempotent_mod_fields (e : ResultEntry)
    (hsem : e.semester ≠ "") (hpub : e.publishedAt ≠ "")
    (hres : e.result.gpa = e.gpa) :
    mapGpaRecord (canonEntryToRaw e) = e := by
  cases e with
  | mk pub sem res pass gpa =>
    cases res with
    | mk rgpa rsubs =>
      dsimp at hres hsem hpub
      subst hres
      simp [mapGpaRecord, canonEntryToRaw, jsOrStr, jsOrVal, GVal.truthy,
        GVal.toStr, gpaField, hsem, hpub]

theorem C8_normalize_idempotent_mod_fields_witness :
    mapGpaRecord (canonEntryToRaw eCanon) = eCanon :=
  C8_normalize_idempotent_mod_fields eCanon (by decide) (by decide) (by decide)

